import Mathlib

/-!
Shallow embedding of the ckanutils incremental synchronization engine
(src/ckanutils/datastorer.py and src/ckanutils/api.py).

The remote CKAN service is modelled by an explicit ledger state plus
outcome oracles for the fallible remote calls; each method of the source
becomes a pure Lean function over those.  Methods of the repository that
are not present under src (utils.chunk, CKAN.update_datastore,
CKAN.update_hash_table, CKAN.create_hash_table) are modelled from the
spec and carry a doc comment saying so.
-/

namespace Ckanutils

/-- Which item a NotFound error from get_hash identifies as missing:
the hash table package, the hash table resource, or the datastore table
(api.py get_hash raises NotFound with item set to one of these). -/
inductive Item where
  | package
  | resource
  | datastore
deriving DecidableEq, Repr

/-- State of the remote fingerprint ledger: whether the hash table
package exists (hash_table_pack), whether the hash table resource exists
(hash_table_id), whether the hash table is present in the datastore, and
the rows of the ledger table as (datastore_id, hash) pairs. -/
structure LedgerState where
  pack : Bool
  res : Bool
  table : Bool
  entries : List (String × String)
deriving DecidableEq, Repr

/-- First row of the ledger matching the given resource id, as returned
by datastore_search with filters on datastore_id and limit 1. -/
def lookupEntry : List (String × String) → String → Option String
  | [], _ => none
  | (k, v) :: rest, rid => if k = rid then some v else lookupEntry rest rid

/-- Embedding of CKAN.get_hash (api.py lines 260-312): raises NotFound
naming the package when hash_table_pack is unset, the resource when
hash_table_id is unset, the datastore when the search itself raises
NotFound (table absent); an IndexError from an empty record list yields
the value None without raising. -/
def get_hash (st : LedgerState) (rid : String) : Except Item (Option String) :=
  if ¬ st.pack then .error .package
  else if ¬ st.res then .error .resource
  else if ¬ st.table then .error .datastore
  else .ok (lookupEntry st.entries rid)

/-- Outcome of the remote datastore_delete call inside delete_table:
success with a result value, NotFound, or a ValidationError whose
error_dict has the given keys. -/
inductive DeleteCallOutcome where
  | ok
  | notFound
  | validationErr (keys : List String)
deriving DecidableEq, Repr

/-- How a delete_table call finishes: a normal return carrying either
the remote result (true) or None (false), or an UnboundLocalError when
the return statement reads a variable no branch assigned. -/
inductive DeleteResult where
  | ret (value : Bool) (notFoundDiag : Bool) (readOnlyDiag : Bool)
  | unboundLocal
deriving DecidableEq, Repr

/-- Embedding of CKAN.delete_table (api.py lines 155-200): NotFound is
caught, a diagnostic is printed and None returned; a ValidationError
whose error_dict holds the read-only key prints a diagnostic and returns
None; a ValidationError without that key is caught but the handler body
assigns nothing, so the final return reads an unbound local. -/
def delete_table (outcome : DeleteCallOutcome) : DeleteResult :=
  match outcome with
  | .ok => .ret true false false
  | .notFound => .ret false true false
  | .validationErr keys =>
      if "read-only" ∈ keys then .ret false false true
      else .unboundLocal

/-- Fuel-indexed chunking recursion: each step emits one chunk of size k
(the last chunk takes the remainder) and recurses on the rest.  The fuel
is an upper bound on the number of steps; with fuel at least the length
of the list it never runs out, since a nonzero k drops at least one
element per step. -/
def chunkListFuel (k : Nat) : Nat → List α → List (List α)
  | _, [] => []
  | 0, l => [l]
  | fuel + 1, a :: l =>
      if k = 0 then [a :: l]
      else (a :: l).take k :: chunkListFuel k fuel ((a :: l).drop k)

/-- Modelled from the spec: utils.chunk is not under src.  Splitting an
ordered sequence into bounded batches: every chunk except possibly the
last has exactly size k, the last has the remainder, no chunk is empty
unless the input is empty (then the sequence is empty), and a chunk size
of zero means one chunk containing everything. -/
def chunkList (k : Nat) (l : List α) : List (List α) :=
  chunkListFuel k l.length l

/-- Modelled from the spec: utils.chunk with the optional start and stop
offsets restricts to the sub-range of the sequence before chunking. -/
def chunk (records : List α) (chunksize : Nat) (start : Nat)
    (stop : Option Nat) : List (List α) :=
  let sliced := match stop with
    | none => records.drop start
    | some s => (records.take s).drop start
  chunkList chunksize sliced

/-- Per-chunk outcome of the remote datastore_upsert call inside
insert_records: success, a ConnectionError whose message names a broken
pipe, or any other ConnectionError. -/
inductive UpsertOutcome where
  | ok
  | brokenPipe
  | connErr
deriving DecidableEq, Repr

/-- Observable outcome of an insert_records run: the returned value
(none when an exception was re-raised), the chunks successfully written,
in order, and whether the chunk-size-too-large diagnosis was printed. -/
structure InsertOutcome (R : Type) where
  retval : Option Nat
  written : List (List R)
  sizeDiag : Bool
deriving DecidableEq, Repr

/-- The loop of CKAN.insert_records (api.py lines 238-257): each chunk
is upserted in order; on a broken-pipe ConnectionError the diagnosis is
printed and 0 returned at once; any other ConnectionError is re-raised;
otherwise count is advanced by the chunk length.  The oracle gives the
outcome of the upsert call for each chunk index. -/
def insertLoop (oracle : Nat → UpsertOutcome) (idx : Nat) (count : Nat) :
    List (List R) → InsertOutcome R
  | [] => ⟨some count, [], false⟩
  | c :: cs =>
    match oracle idx with
    | .ok =>
        let r := insertLoop oracle (idx + 1) (count + c.length) cs
        ⟨r.retval, c :: r.written, r.sizeDiag⟩
    | .brokenPipe => ⟨some 0, [], true⟩
    | .connErr => ⟨none, [], false⟩

/-- Embedding of CKAN.insert_records (api.py lines 202-258): the records
are chunked by utils.chunk with the given chunksize, start and stop, and
the loop starts with count = 1. -/
def insert_records (oracle : Nat → UpsertOutcome) (records : List R)
    (chunksize : Nat) (start : Nat) (stop : Option Nat) : InsertOutcome R :=
  insertLoop oracle 0 1 (chunk records chunksize start stop)

/-- Modelled from the spec: CKAN.create_hash_table is not under src.
Provisioning creates the ledger table lazily; a provisioning call on an
existing ledger is a no-op, and a freshly created table is empty. -/
def create_hash_table (st : LedgerState) : LedgerState :=
  if st.table then st else { st with table := true, entries := [] }

/-- Upsert on the ledger rows keyed by resource id: an existing row for
the id is replaced in place, otherwise a new row is appended. -/
def upsertEntry : List (String × String) → String → String →
    List (String × String)
  | [], rid, h => [(rid, h)]
  | (k, v) :: rest, rid, h =>
      if k = rid then (rid, h) :: rest else (k, v) :: upsertEntry rest rid h

/-- Modelled from the spec: CKAN.update_hash_table is not under src.
Recording upserts the (resource id, fingerprint) row of the ledger and
never creates a second row for the same resource id. -/
def update_hash_table (st : LedgerState) (rid : String)
    (h : String) : LedgerState :=
  { st with entries := upsertEntry st.entries rid h }

/-- Outcome of the fetch stage of datastorer.update: fetch_resource and
the temp file write either succeed, or raise NotFound or NotAuthorized,
or raise some other exception. -/
inductive FetchOutcome where
  | ok
  | notFound
  | otherErr
deriving DecidableEq, Repr

/-- Outcome of tio.write_file on the fetched content. -/
inductive WriteOutcome where
  | ok
  | raise
deriving DecidableEq, Repr

/-- Outcome of CKAN.update_datastore (modelled from the spec since it is
not under src): a truthy return, a falsy return, or an exception. -/
inductive SyncOutcome where
  | ok
  | failed
  | raise
deriving DecidableEq, Repr

/-- Environment of one run of datastorer.update: the outcomes of the
remote calls, the freshly computed fingerprint of the downloaded file,
the force flag, and whether an organization matching hash_group exists
(the generator next call on line 109-110 raises StopIteration when no
organization matches). -/
structure Env where
  fetch : FetchOutcome
  write : WriteOutcome
  new_hash : String
  force : Bool
  sync : SyncOutcome
  orgFound : Bool
deriving DecidableEq, Repr

/-- How a run of datastorer.update ends: sys.exit(0), sys.exit(1), or an
uncaught exception. -/
inductive ExitKind where
  | exit0
  | exit1
  | raised
deriving DecidableEq, Repr

/-- Observable outcome of one run of datastorer.update: how it exited,
the final ledger state, whether update_datastore was invoked, whether
update_hash_table was invoked, whether any lazy provisioning of the
ledger was performed, whether the temp file was created, and whether the
finally block unlinked it. -/
structure UpdateResult where
  exit : ExitKind
  ledger : LedgerState
  calledSync : Bool
  recorded : Bool
  provisioned : Bool
  tmpCreated : Bool
  tmpRemoved : Bool
deriving DecidableEq, Repr

/-- The changed test of datastorer.update line 133: when the old hash is
truthy the fingerprints are compared, otherwise changed is True. -/
def changedOf (new_hash : String) (old_hash : Option String) : Bool :=
  match old_hash with
  | some h => if h = "" then true else decide (new_hash ≠ h)
  | none => true

/-- The NotFound handler of datastorer.update lines 103-129: when the
package is missing it is created (after the organization lookup); when
the package or the resource is missing the hash table resource is
created; in every case create_hash_table provisions the ledger table. -/
def provisionLedger (st : LedgerState) (item : Item) : LedgerState :=
  let st1 := if item = .package then { st with pack := true } else st
  let st2 := if item = .package ∨ item = .resource then
    { st1 with res := true } else st1
  create_hash_table st2

/-- Outcome of the else block of datastorer.update before the finally
clause: exit kind, final ledger, and the calledSync, recorded and
provisioned flags. -/
structure BodyResult where
  exit : ExitKind
  ledger : LedgerState
  calledSync : Bool
  recorded : Bool
  provisioned : Bool
deriving DecidableEq, Repr

/-- The lookup of datastorer.update lines 101-130: get_hash, and on a
NotFound the lazy provisioning handler followed by a retried get_hash.
The error side carries the state at the uncaught exception (StopIteration
from the organization generator, or a second NotFound). -/
def lookupStage (env : Env) (st : LedgerState) (rid : String) :
    Except (LedgerState × Bool) (Option String × LedgerState × Bool) :=
  match get_hash st rid with
  | .ok h => .ok (h, st, false)
  | .error item =>
      if item = .package ∧ ¬ env.orgFound then .error (st, false)
      else
        match get_hash (provisionLedger st item) rid with
        | .ok h => .ok (h, provisionLedger st item, true)
        | .error _ => .error (provisionLedger st item, true)

/-- Lines 132-153 of datastorer.update: the changed test, the skip exit,
the call to update_datastore, and the conditional update_hash_table call
gated on updated and changed. -/
def syncStage (env : Env) (old_hash : Option String) (st' : LedgerState)
    (rid : String) (prov : Bool) : BodyResult :=
  let changed := changedOf env.new_hash old_hash
  if ¬ (changed ∨ env.force) then ⟨.exit0, st', false, false, prov⟩
  else
    match env.sync with
    | .raise => ⟨.raised, st', true, false, prov⟩
    | .failed => ⟨.exit1, st', true, false, prov⟩
    | .ok =>
        if changed then
          ⟨.exit0, update_hash_table st' rid env.new_hash, true, true, prov⟩
        else ⟨.exit0, st', true, false, prov⟩

/-- The else block of datastorer.update lines 100-153, before the
finally clause. -/
def updateBody (env : Env) (st : LedgerState) (rid : String) : BodyResult :=
  match lookupStage env st rid with
  | .error (st', prov) => ⟨.raised, st', false, false, prov⟩
  | .ok (old_hash, st', prov) => syncStage env old_hash st' rid prov

/-- Embedding of datastorer.update (datastorer.py lines 74-158).  The
first try block fetches the resource, creates the temp file and writes
the content; its except handlers set filepath to None and exit(1), so
the finally clause unlinks nothing even when the temp file was already
created.  On success the else block runs and the finally clause unlinks
the temp file on every one of its exits. -/
def update (env : Env) (st : LedgerState) (rid : String) : UpdateResult :=
  match env.fetch with
  | .notFound => ⟨.exit1, st, false, false, false, false, false⟩
  | .otherErr => ⟨.exit1, st, false, false, false, false, false⟩
  | .ok =>
    match env.write with
    | .raise => ⟨.exit1, st, false, false, false, true, false⟩
    | .ok =>
        let b := updateBody env st rid
        ⟨b.exit, b.ledger, b.calledSync, b.recorded, b.provisioned, true, true⟩

/-- Modelled from the spec: CKAN.update_datastore is not under src.  As
seen by datastorer.update, its outcome reflects the insert_records
return value: a re-raised exception propagates, a zero return is falsy
(updated false), a positive return is truthy. -/
def syncOutcomeOfInsert (o : InsertOutcome R) : SyncOutcome :=
  match o.retval with
  | none => .raise
  | some 0 => .failed
  | some (_ + 1) => .ok

theorem provisionLedger_entries (st : LedgerState) (item : Item)
    (hwf : st.table = false → st.entries = []) :
    (provisionLedger st item).entries = st.entries := by
  cases ht : st.table
  · cases item <;> simp [provisionLedger, create_hash_table, ht, hwf ht]
  · cases item <;> simp [provisionLedger, create_hash_table, ht]

theorem get_hash_error_cases (st : LedgerState) (rid : String) (item : Item)
    (h : get_hash st rid = .error item) :
    (item = .package ∧ st.pack = false) ∨
    (item = .resource ∧ st.pack = true ∧ st.res = false) ∨
    (item = .datastore ∧ st.pack = true ∧ st.res = true ∧ st.table = false) := by
  unfold get_hash at h
  cases hp : st.pack <;> cases hr : st.res <;> cases ht : st.table <;>
    simp [hp, hr, ht] at h <;> simp [h, hp, hr, ht]

theorem provision_after_error (st : LedgerState) (rid : String) (item : Item)
    (h : get_hash st rid = .error item)
    (hcont : st.table = true → st.pack = true ∧ st.res = true) :
    provisionLedger st item = ⟨true, true, true, []⟩ := by
  rcases get_hash_error_cases st rid item h with
    ⟨hi, hp⟩ | ⟨hi, hp, hr⟩ | ⟨hi, hp, hr, ht⟩
  · have ht : st.table = false := by
      cases ht : st.table
      · rfl
      · exact absurd (hcont ht).1 (by simp [hp])
    simp [provisionLedger, create_hash_table, hi, ht, hp]
  · have ht : st.table = false := by
      cases ht : st.table
      · rfl
      · exact absurd (hcont ht).2 (by simp [hr])
    simp [provisionLedger, create_hash_table, hi, ht, hp]
  · simp [provisionLedger, create_hash_table, hi, ht, hp, hr]

theorem lookupStage_ok_entries (env : Env) (st : LedgerState) (rid : String)
    (oh : Option String) (st' : LedgerState) (prov : Bool)
    (hwf : st.table = false → st.entries = [])
    (h : lookupStage env st rid = .ok (oh, st', prov)) :
    st'.entries = st.entries := by
  unfold lookupStage at h
  cases hg : get_hash st rid with
  | ok v =>
      rw [hg] at h
      simp at h
      rw [← h.2.1]
  | error item =>
      rw [hg] at h
      dsimp only at h
      by_cases hc : item = Item.package ∧ ¬ env.orgFound = true
      · rw [if_pos hc] at h
        exact absurd h (by simp)
      · rw [if_neg hc] at h
        cases hg2 : get_hash (provisionLedger st item) rid with
        | ok v =>
            rw [hg2] at h
            simp at h
            rw [← h.2.1]
            exact provisionLedger_entries st item hwf
        | error it2 =>
            rw [hg2] at h
            exact absurd h (by simp)

theorem lookupStage_error_entries (env : Env) (st : LedgerState) (rid : String)
    (st' : LedgerState) (prov : Bool)
    (hwf : st.table = false → st.entries = [])
    (h : lookupStage env st rid = .error (st', prov)) :
    st'.entries = st.entries := by
  unfold lookupStage at h
  cases hg : get_hash st rid with
  | ok v =>
      rw [hg] at h
      exact absurd h (by simp)
  | error item =>
      rw [hg] at h
      dsimp only at h
      by_cases hc : item = Item.package ∧ ¬ env.orgFound = true
      · rw [if_pos hc] at h
        simp at h
        rw [← h.1]
      · rw [if_neg hc] at h
        cases hg2 : get_hash (provisionLedger st item) rid with
        | ok v =>
            rw [hg2] at h
            exact absurd h (by simp)
        | error it2 =>
            rw [hg2] at h
            simp at h
            rw [← h.1]
            exact provisionLedger_entries st item hwf

theorem syncStage_props (env : Env) (oh : Option String)
    (st' : LedgerState) (rid : String) (prov : Bool) :
    ((syncStage env oh st' rid prov).recorded = true ↔
        env.sync = .ok ∧ changedOf env.new_hash oh = true) ∧
    (env.sync ≠ .ok → (syncStage env oh st' rid prov).ledger = st') ∧
    ((syncStage env oh st' rid prov).recorded = false →
        (syncStage env oh st' rid prov).ledger = st') ∧
    (syncStage env oh st' rid prov).provisioned = prov ∧
    (changedOf env.new_hash oh = true →
        (syncStage env oh st' rid prov).calledSync = true) ∧
    (env.force = true → (syncStage env oh st' rid prov).calledSync = true) ∧
    ((syncStage env oh st' rid prov).recorded = true →
        (syncStage env oh st' rid prov).calledSync = true) ∧
    (env.sync = .failed → (syncStage env oh st' rid prov).calledSync = true →
        (syncStage env oh st' rid prov).exit = .exit1) ∧
    ((syncStage env oh st' rid prov).ledger = st' ∨
        (syncStage env oh st' rid prov).ledger =
          update_hash_table st' rid env.new_hash) ∧
    (changedOf env.new_hash oh = false → env.force = false →
        syncStage env oh st' rid prov = ⟨.exit0, st', false, false, prov⟩) := by
  cases hs : env.sync <;> cases hc : changedOf env.new_hash oh <;>
    cases hf : env.force <;> simp [syncStage, hs, hc, hf]

theorem update_ok_proj (env : Env) (st : LedgerState) (rid : String)
    (hf : env.fetch = .ok) (hw : env.write = .ok) :
    update env st rid = ⟨(updateBody env st rid).exit,
      (updateBody env st rid).ledger, (updateBody env st rid).calledSync,
      (updateBody env st rid).recorded, (updateBody env st rid).provisioned,
      true, true⟩ := by
  simp [update, hf, hw]

theorem update_props (env : Env) (st : LedgerState) (rid : String)
    (hwf : st.table = false → st.entries = []) :
    ((update env st rid).recorded = true →
        env.sync = .ok ∧ (update env st rid).calledSync = true) ∧
    (env.sync ≠ .ok →
        (update env st rid).recorded = false ∧
        (update env st rid).ledger.entries = st.entries) ∧
    (env.sync = .failed → (update env st rid).calledSync = true →
        (update env st rid).exit = .exit1) := by
  cases hf : env.fetch with
  | notFound => simp [update, hf]
  | otherErr => simp [update, hf]
  | ok =>
    cases hw : env.write with
    | raise => simp [update, hf, hw]
    | ok =>
      rw [update_ok_proj env st rid hf hw]
      cases hls : lookupStage env st rid with
      | error p =>
          obtain ⟨st', prov⟩ := p
          have hb : updateBody env st rid =
              ⟨.raised, st', false, false, prov⟩ := by
            unfold updateBody
            rw [hls]
          rw [hb]
          refine ⟨?_, ?_, ?_⟩
          · intro hr
            simp at hr
          · intro _
            exact ⟨rfl, lookupStage_error_entries env st rid st' prov hwf hls⟩
          · intro _ hcs
            simp at hcs
      | ok t =>
          obtain ⟨oh, st', prov⟩ := t
          have hb : updateBody env st rid = syncStage env oh st' rid prov := by
            unfold updateBody
            rw [hls]
          rw [hb]
          have hp := syncStage_props env oh st' rid prov
          have hent := lookupStage_ok_entries env st rid oh st' prov hwf hls
          refine ⟨?_, ?_, ?_⟩
          · intro hr
            exact ⟨(hp.1.mp hr).1, hp.2.2.2.2.2.2.1 hr⟩
          · intro hs
            have hrec : (syncStage env oh st' rid prov).recorded = false := by
              cases hrec : (syncStage env oh st' rid prov).recorded
              · rfl
              · exact absurd (hp.1.mp hrec).1 hs
            exact ⟨hrec, by rw [hp.2.1 hs, hent]⟩
          · exact hp.2.2.2.2.2.2.2.1

theorem insertLoop_firstFail (oracle : Nat → UpsertOutcome)
    (cs : List (List R)) (idx count i : Nat)
    (hok : ∀ j, j < i → oracle (idx + j) = .ok) (hlt : i < cs.length) :
    (oracle (idx + i) = .brokenPipe →
        insertLoop oracle idx count cs = ⟨some 0, cs.take i, true⟩) ∧
    (oracle (idx + i) = .connErr →
        insertLoop oracle idx count cs = ⟨none, cs.take i, false⟩) := by
  induction cs generalizing idx count i with
  | nil => exact absurd hlt (by simp)
  | cons c cs ih =>
    cases i with
    | zero =>
        refine ⟨fun h => ?_, fun h => ?_⟩ <;>
          · rw [Nat.add_zero] at h
            simp [insertLoop, h]
    | succ i' =>
        have h0 : oracle idx = .ok := by
          have := hok 0 (Nat.succ_pos i')
          rwa [Nat.add_zero] at this
        have hok' : ∀ j, j < i' → oracle (idx + 1 + j) = .ok := by
          intro j hj
          have := hok (j + 1) (by omega)
          rwa [show idx + (j + 1) = idx + 1 + j by omega] at this
        have hlt' : i' < cs.length := by
          simp at hlt
          omega
        have IH := ih (idx + 1) (count + c.length) i' hok' hlt'
        have harith : idx + (i' + 1) = idx + 1 + i' := by omega
        refine ⟨fun h => ?_, fun h => ?_⟩
        · rw [harith] at h
          simp [insertLoop, h0, IH.1 h]
        · rw [harith] at h
          simp [insertLoop, h0, IH.2 h]

/-- C1: in every run where the ledger lookup returns a previous
fingerprint, the newly computed fingerprint equals it and the force flag
is unset, datastorer.update exits successfully without invoking
update_datastore and without touching the ledger. -/
theorem C1_unchanged_skips_sync (env : Env) (st : LedgerState) (rid h : String)
    (hf : env.fetch = .ok) (hw : env.write = .ok)
    (hl : get_hash st rid = .ok (some h)) (hne : h ≠ "")
    (heq : env.new_hash = h) (hforce : env.force = false) :
    (update env st rid).exit = .exit0 ∧
    (update env st rid).calledSync = false ∧
    (update env st rid).recorded = false ∧
    (update env st rid).ledger = st := by
  have hchanged : changedOf env.new_hash (some h) = false := by
    simp [changedOf, hne, heq]
  have hls : lookupStage env st rid = .ok (some h, st, false) := by
    unfold lookupStage
    rw [hl]
  have hbody : updateBody env st rid = ⟨.exit0, st, false, false, false⟩ := by
    unfold updateBody
    rw [hls]
    exact (syncStage_props env (some h) st rid false).2.2.2.2.2.2.2.2.2
      hchanged hforce
  rw [update_ok_proj env st rid hf hw, hbody]
  exact ⟨rfl, rfl, rfl, rfl⟩

/-- Witness for C1 at a concrete unchanged run. -/
theorem C1_witness :
    (update ⟨.ok, .ok, "h1", false, .ok, true⟩
        ⟨true, true, true, [("r", "h1")]⟩ "r").exit = .exit0 ∧
    (update ⟨.ok, .ok, "h1", false, .ok, true⟩
        ⟨true, true, true, [("r", "h1")]⟩ "r").calledSync = false ∧
    (update ⟨.ok, .ok, "h1", false, .ok, true⟩
        ⟨true, true, true, [("r", "h1")]⟩ "r").recorded = false ∧
    (update ⟨.ok, .ok, "h1", false, .ok, true⟩
        ⟨true, true, true, [("r", "h1")]⟩ "r").ledger =
      ⟨true, true, true, [("r", "h1")]⟩ :=
  C1_unchanged_skips_sync _ _ "r" "h1" rfl rfl rfl (by decide) rfl rfl

/-- C2: the ledger record step is invoked only on a run whose table
synchronization returned success, and any run whose synchronization
fails or raises leaves the ledger rows unchanged. -/
theorem C2_record_only_after_sync (env : Env) (st : LedgerState) (rid : String)
    (hwf : st.table = false → st.entries = []) :
    ((update env st rid).recorded = true →
        env.sync = .ok ∧ (update env st rid).calledSync = true) ∧
    (env.sync ≠ .ok →
        (update env st rid).recorded = false ∧
        (update env st rid).ledger.entries = st.entries) :=
  ⟨(update_props env st rid hwf).1, (update_props env st rid hwf).2.1⟩

/-- Witness for C2 at a concrete failing sync. -/
theorem C2_witness :
    ((update ⟨.ok, .ok, "h2", false, .failed, true⟩
        ⟨true, true, true, [("r", "h1")]⟩ "r").recorded = true →
      (⟨.ok, .ok, "h2", false, .failed, true⟩ : Env).sync = .ok ∧
      (update ⟨.ok, .ok, "h2", false, .failed, true⟩
        ⟨true, true, true, [("r", "h1")]⟩ "r").calledSync = true) ∧
    ((⟨.ok, .ok, "h2", false, .failed, true⟩ : Env).sync ≠ .ok →
      (update ⟨.ok, .ok, "h2", false, .failed, true⟩
        ⟨true, true, true, [("r", "h1")]⟩ "r").recorded = false ∧
      (update ⟨.ok, .ok, "h2", false, .failed, true⟩
        ⟨true, true, true, [("r", "h1")]⟩ "r").ledger.entries =
        (⟨true, true, true, [("r", "h1")]⟩ : LedgerState).entries) :=
  C2_record_only_after_sync ⟨.ok, .ok, "h2", false, .failed, true⟩
    ⟨true, true, true, [("r", "h1")]⟩ "r" (by simp)

/-- C3: get_hash raises NotFound naming the missing item when the ledger
package, resource or datastore table is absent, and returns None without
raising when the ledger exists but holds no row for the resource id. -/
theorem C3_lookup_distinguishes_absence (st : LedgerState) (rid : String) :
    (st.pack = false → get_hash st rid = .error .package) ∧
    (st.pack = true → st.res = false → get_hash st rid = .error .resource) ∧
    (st.pack = true → st.res = true → st.table = false →
        get_hash st rid = .error .datastore) ∧
    (st.pack = true → st.res = true → st.table = true →
        lookupEntry st.entries rid = none → get_hash st rid = .ok none) := by
  refine ⟨fun hp => ?_, fun hp hr => ?_, fun hp hr ht => ?_,
    fun hp hr ht hl => ?_⟩
  · simp [get_hash, hp]
  · simp [get_hash, hp, hr]
  · simp [get_hash, hp, hr, ht]
  · simp [get_hash, hp, hr, ht, hl]

/-- Witness for C3 at a concrete missing package and a concrete ledger
without an entry. -/
theorem C3_witness :
    get_hash ⟨false, true, true, []⟩ "r" = .error .package ∧
    get_hash ⟨true, true, true, []⟩ "r" = .ok none :=
  ⟨(C3_lookup_distinguishes_absence ⟨false, true, true, []⟩ "r").1 rfl,
   (C3_lookup_distinguishes_absence ⟨true, true, true, []⟩ "r").2.2.2
     rfl rfl rfl rfl⟩

/-- C4 counterexample: with the force flag set and the new fingerprint
equal to the stored one, update_datastore is invoked but the ledger
record step update_hash_table is not, and the ledger is returned
unchanged — the claim that the engine updates the ledger entry fails at
this input. -/
theorem C4_counterexample :
    (update ⟨.ok, .ok, "h1", true, .ok, true⟩
        ⟨true, true, true, [("r", "h1")]⟩ "r").calledSync = true ∧
    (update ⟨.ok, .ok, "h1", true, .ok, true⟩
        ⟨true, true, true, [("r", "h1")]⟩ "r").recorded = false ∧
    (update ⟨.ok, .ok, "h1", true, .ok, true⟩
        ⟨true, true, true, [("r", "h1")]⟩ "r").ledger =
      ⟨true, true, true, [("r", "h1")]⟩ :=
  ⟨rfl, rfl, rfl⟩

/-- C4 amended: with the force flag set and an unchanged fingerprint the
engine still performs table synchronization, but it does not invoke the
ledger record step and leaves the ledger unchanged (the entry already
holds that fingerprint, since recording happens only when updated and
changed are both true). -/
theorem C4_forced_sync_no_rerecord (env : Env) (st : LedgerState)
    (rid h : String) (hf : env.fetch = .ok) (hw : env.write = .ok)
    (hl : get_hash st rid = .ok (some h)) (hne : h ≠ "")
    (heq : env.new_hash = h) (hforce : env.force = true) :
    (update env st rid).calledSync = true ∧
    (update env st rid).recorded = false ∧
    (update env st rid).ledger = st := by
  have hchanged : changedOf env.new_hash (some h) = false := by
    simp [changedOf, hne, heq]
  have hls : lookupStage env st rid = .ok (some h, st, false) := by
    unfold lookupStage
    rw [hl]
  have hb : updateBody env st rid = syncStage env (some h) st rid false := by
    unfold updateBody
    rw [hls]
  have hp := syncStage_props env (some h) st rid false
  have hrec : (syncStage env (some h) st rid false).recorded = false := by
    cases hr : (syncStage env (some h) st rid false).recorded
    · rfl
    · have := (hp.1.mp hr).2
      rw [hchanged] at this
      cases this
  rw [update_ok_proj env st rid hf hw, hb]
  exact ⟨hp.2.2.2.2.2.1 hforce, hrec, hp.2.2.1 hrec⟩

/-- Witness for the amended C4 at a concrete forced unchanged run. -/
theorem C4_witness :
    (update ⟨.ok, .ok, "h1", true, .ok, true⟩
        ⟨true, true, true, [("r", "h1")]⟩ "r").calledSync = true ∧
    (update ⟨.ok, .ok, "h1", true, .ok, true⟩
        ⟨true, true, true, [("r", "h1")]⟩ "r").recorded = false ∧
    (update ⟨.ok, .ok, "h1", true, .ok, true⟩
        ⟨true, true, true, [("r", "h1")]⟩ "r").ledger =
      ⟨true, true, true, [("r", "h1")]⟩ :=
  C4_forced_sync_no_rerecord _ _ "r" "h1" rfl rfl rfl (by decide) rfl rfl

/-- C5: a ledger lookup failing with NotFound triggers lazy provisioning
of the missing package, resource and table, after which the lookup is
retried and the run continues into table synchronization; a lookup that
merely finds no entry continues on the changed path with no
provisioning. -/
theorem C5_lazy_provisioning (env : Env) (st : LedgerState) (rid : String)
    (hf : env.fetch = .ok) (hw : env.write = .ok) (horg : env.orgFound = true)
    (hcont : st.table = true → st.pack = true ∧ st.res = true) :
    (∀ item, get_hash st rid = .error item →
        (update env st rid).provisioned = true ∧
        (update env st rid).calledSync = true ∧
        (update env st rid).ledger.pack = true ∧
        (update env st rid).ledger.res = true ∧
        (update env st rid).ledger.table = true) ∧
    (get_hash st rid = .ok none →
        (update env st rid).provisioned = false ∧
        (update env st rid).calledSync = true) := by
  constructor
  · intro item hg
    have hprov := provision_after_error st rid item hg hcont
    have hg2 : get_hash (⟨true, true, true, []⟩ : LedgerState) rid =
        .ok none := rfl
    have hls : lookupStage env st rid =
        .ok (none, ⟨true, true, true, []⟩, true) := by
      unfold lookupStage
      rw [hg]
      dsimp only
      rw [if_neg (by simp [horg]), hprov, hg2]
    have hb : updateBody env st rid =
        syncStage env none ⟨true, true, true, []⟩ rid true := by
      unfold updateBody
      rw [hls]
    have hp := syncStage_props env none ⟨true, true, true, []⟩ rid true
    have hch : changedOf env.new_hash none = true := rfl
    rw [update_ok_proj env st rid hf hw, hb]
    refine ⟨hp.2.2.2.1, hp.2.2.2.2.1 hch, ?_⟩
    rcases hp.2.2.2.2.2.2.2.2.1 with hl | hl <;> rw [hl] <;>
      simp [update_hash_table]
  · intro hg
    have hls : lookupStage env st rid = .ok (none, st, false) := by
      unfold lookupStage
      rw [hg]
    have hb : updateBody env st rid = syncStage env none st rid false := by
      unfold updateBody
      rw [hls]
    have hp := syncStage_props env none st rid false
    rw [update_ok_proj env st rid hf hw, hb]
    exact ⟨hp.2.2.2.1, hp.2.2.2.2.1 rfl⟩

/-- Witness for C5 at a concrete fully missing ledger and a concrete
ledger without an entry. -/
theorem C5_witness :
    ((update ⟨.ok, .ok, "h1", false, .ok, true⟩
        ⟨false, false, false, []⟩ "r").provisioned = true ∧
     (update ⟨.ok, .ok, "h1", false, .ok, true⟩
        ⟨false, false, false, []⟩ "r").calledSync = true ∧
     (update ⟨.ok, .ok, "h1", false, .ok, true⟩
        ⟨false, false, false, []⟩ "r").ledger.pack = true ∧
     (update ⟨.ok, .ok, "h1", false, .ok, true⟩
        ⟨false, false, false, []⟩ "r").ledger.res = true ∧
     (update ⟨.ok, .ok, "h1", false, .ok, true⟩
        ⟨false, false, false, []⟩ "r").ledger.table = true) ∧
    ((update ⟨.ok, .ok, "h1", false, .ok, true⟩
        ⟨true, true, true, []⟩ "r").provisioned = false ∧
     (update ⟨.ok, .ok, "h1", false, .ok, true⟩
        ⟨true, true, true, []⟩ "r").calledSync = true) :=
  ⟨(C5_lazy_provisioning ⟨.ok, .ok, "h1", false, .ok, true⟩
      ⟨false, false, false, []⟩ "r" rfl rfl rfl (by simp)).1 .package rfl,
   (C5_lazy_provisioning ⟨.ok, .ok, "h1", false, .ok, true⟩
      ⟨true, true, true, []⟩ "r" rfl rfl rfl (by simp)).2 rfl⟩

/-- C6: when the first failing chunk write fails with a broken-pipe
ConnectionError, insert_records stops after the chunks already written,
prints the chunk-size-too-large diagnosis and returns 0; the run whose
update_datastore outcome reflects that return records no ledger entry,
leaves the ledger rows unchanged and exits with status 1; any other
ConnectionError is re-raised (no return value, no diagnosis). -/
theorem C6_broken_pipe_aborts (oracle : Nat → UpsertOutcome)
    (records : List R) (k start i : Nat) (stop : Option Nat)
    (hok : ∀ j, j < i → oracle j = .ok)
    (hlt : i < (chunk records k start stop).length)
    (env : Env) (st : LedgerState) (rid : String)
    (hwf : st.table = false → st.entries = [])
    (hsync : env.sync = syncOutcomeOfInsert
        (insert_records oracle records k start stop)) :
    (oracle i = .brokenPipe →
        insert_records oracle records k start stop =
          ⟨some 0, (chunk records k start stop).take i, true⟩ ∧
        (update env st rid).recorded = false ∧
        (update env st rid).ledger.entries = st.entries ∧
        ((update env st rid).calledSync = true →
            (update env st rid).exit = .exit1)) ∧
    (oracle i = .connErr →
        insert_records oracle records k start stop =
          ⟨none, (chunk records k start stop).take i, false⟩) := by
  have hok0 : ∀ j, j < i → oracle (0 + j) = .ok := by
    intro j hj
    rw [Nat.zero_add]
    exact hok j hj
  have hloop := insertLoop_firstFail oracle (chunk records k start stop)
    0 1 i hok0 hlt
  constructor
  · intro h
    have h0 : oracle (0 + i) = .brokenPipe := by rwa [Nat.zero_add]
    have hins : insert_records oracle records k start stop =
        ⟨some 0, (chunk records k start stop).take i, true⟩ := by
      unfold insert_records
      exact hloop.1 h0
    have hfail : env.sync = .failed := by
      rw [hsync, hins]
      rfl
    have hup := update_props env st rid hwf
    have hns : env.sync ≠ SyncOutcome.ok := by
      rw [hfail]
      intro hcon
      cases hcon
    exact ⟨hins, (hup.2.1 hns).1, (hup.2.1 hns).2, hup.2.2 hfail⟩
  · intro h
    have h0 : oracle (0 + i) = .connErr := by rwa [Nat.zero_add]
    unfold insert_records
    exact hloop.2 h0

/-- Witness for C6: second chunk write hits a broken pipe; two records
are written, the diagnosis is printed, 0 is returned, and the run
records nothing, keeps the ledger rows and exits 1. -/
theorem C6_witness :
    (insert_records (fun j => if j = 0 then .ok else .brokenPipe)
        [(1 : Nat), 2, 3, 4] 2 0 none =
      ⟨some 0, [[1, 2]], true⟩ ∧
    (update ⟨.ok, .ok, "h2", false, .failed, true⟩
        ⟨true, true, true, [("r", "h1")]⟩ "r").recorded = false ∧
    (update ⟨.ok, .ok, "h2", false, .failed, true⟩
        ⟨true, true, true, [("r", "h1")]⟩ "r").ledger.entries =
      (⟨true, true, true, [("r", "h1")]⟩ : LedgerState).entries ∧
    ((update ⟨.ok, .ok, "h2", false, .failed, true⟩
        ⟨true, true, true, [("r", "h1")]⟩ "r").calledSync = true →
      (update ⟨.ok, .ok, "h2", false, .failed, true⟩
        ⟨true, true, true, [("r", "h1")]⟩ "r").exit = .exit1)) :=
  (C6_broken_pipe_aborts (fun j => if j = 0 then .ok else .brokenPipe)
    [(1 : Nat), 2, 3, 4] 2 0 1 none
    (by
      intro j hj
      have hj0 : j = 0 := by omega
      subst hj0
      rfl)
    (by decide)
    ⟨.ok, .ok, "h2", false, .failed, true⟩
    ⟨true, true, true, [("r", "h1")]⟩ "r" (by simp) rfl).1 rfl

/-- C7: on the exit path where the content write to the temp file fails,
the except handler of datastorer.update resets filepath to None before
sys.exit, so the finally clause unlinks nothing although the temp file
was already created: the file is leaked, against the claimed guaranteed
removal on every exit path. -/
theorem C7_write_failure_leaks_tempfile :
    (update ⟨.ok, .raise, "h1", false, .ok, true⟩
        ⟨true, true, true, []⟩ "r").tmpCreated = true ∧
    (update ⟨.ok, .raise, "h1", false, .ok, true⟩
        ⟨true, true, true, []⟩ "r").tmpRemoved = false ∧
    (update ⟨.ok, .raise, "h1", false, .ok, true⟩
        ⟨true, true, true, []⟩ "r").exit = .exit1 :=
  ⟨rfl, rfl, rfl⟩

/-- C8: with two records in one chunk and every chunk write succeeding,
insert_records writes both records but returns 3 — one more than the
number of rows written, because count is initialized to 1 although the
docstring promises the number of records inserted. -/
theorem C8_count_off_by_one :
    insert_records (fun _ => .ok) [(1 : Nat), 2] 0 0 none =
      ⟨some 3, [[1, 2]], false⟩ ∧
    ((insert_records (fun _ => .ok) [(1 : Nat), 2] 0 0 none).written.map
        List.length).sum = 2 :=
  ⟨rfl, rfl⟩

/-- C9: delete_table downgrades a ValidationError whose error_dict holds
the read-only key to a skipped delete: it prints the diagnostic and
returns None; a NotFound is likewise caught, diagnosed and turned into a
None return. -/
theorem C9_delete_downgrades (keys : List String)
    (h : "read-only" ∈ keys) :
    delete_table (.validationErr keys) = .ret false false true ∧
    delete_table .notFound = .ret false true false := by
  unfold delete_table
  dsimp only
  rw [if_pos h]
  exact ⟨rfl, rfl⟩

/-- Witness for C9 at a concrete read-only error dictionary. -/
theorem C9_witness :
    delete_table (.validationErr ["read-only"]) = .ret false false true ∧
    delete_table .notFound = .ret false true false :=
  C9_delete_downgrades ["read-only"] (by simp)

/-- C10: a ValidationError whose error_dict lacks the read-only key is
caught by delete_table but the handler assigns nothing, so the final
return statement reads an unbound local and the function fails with an
UnboundLocalError instead of surfacing the ValidationError. -/
theorem C10_validation_error_unbound_local (keys : List String)
    (h : "read-only" ∉ keys) :
    delete_table (.validationErr keys) = .unboundLocal := by
  unfold delete_table
  dsimp only
  rw [if_neg h]

/-- Witness for C10 at a concrete error dictionary without the read-only
key. -/
theorem C10_witness :
    delete_table (.validationErr ["invalid"]) = .unboundLocal :=
  C10_validation_error_unbound_local ["invalid"] (by simp)

end Ckanutils
